import Mathlib

/-!
Shallow embedding of the live-presence poller (src/index.js, with the
variant files src/unnamed/part_000..part_002 where a claim cites them).

The store is modelled per entity: `live_now` is the optional CurrentPresence
row for the entity and `sessions` is the entity's list of SessionRecords in
insertion order.  Timestamps (`now()` in SQL) are passed in as explicit
`Nat` arguments.  The configured OFFLINE_MISS_THRESHOLD is the explicit
parameter `T`.
-/

/-- An entity as returned by the Entity Source (creator_id, tiktok_username). -/
structure Creator where
  creator_id : String
  tiktok_username : String
deriving Repr, DecidableEq

/-- One row of the `live_now` table (CurrentPresence) for a single entity. -/
structure LiveNowRow where
  tiktok_username : String
  went_live_at : Nat
  last_seen_live_at : Nat
  last_check_at : Nat
  miss_count : Nat
  updated_at : Nat
deriving Repr, DecidableEq

/-- One row of the `live_sessions` table (SessionRecord) for a single entity.
`ended_at = none` is SQL `ended_at is null` (an open session); `updated_at`
is only set when the row is closed. -/
structure SessionRow where
  tiktok_username : String
  started_at : Nat
  ended_at : Option Nat
  updated_at : Option Nat
deriving Repr, DecidableEq

/-- The per-entity slice of the database: the optional `live_now` row and the
entity's `live_sessions` rows in insertion order. -/
structure Store where
  live_now : Option LiveNowRow
  sessions : List SessionRow
deriving Repr, DecidableEq

/-- The state of the store before any probe has ever run for the entity. -/
def emptyStore : Store := ⟨none, []⟩

/-- Number of open SessionRecords (rows with `ended_at is null`). -/
def openSessionCount (l : List SessionRow) : Nat :=
  l.countP fun row => row.ended_at.isNone

/-- First statement of `markLive` (src/index.js lines 88-108): upsert into
`live_now`.  On insert every timestamp is `now()` and `miss_count = 0`; on
conflict the username is overwritten, `last_seen_live_at`, `last_check_at`
and `updated_at` are refreshed and `miss_count` reset to 0, while
`went_live_at` is left untouched. -/
def upsertLiveNow (c : Creator) (t : Nat) (s : Store) : Store :=
  match s.live_now with
  | none => ⟨some ⟨c.tiktok_username, t, t, t, 0, t⟩, s.sessions⟩
  | some r =>
    ⟨some { r with
        tiktok_username := c.tiktok_username
        last_seen_live_at := t
        last_check_at := t
        miss_count := 0
        updated_at := t },
      s.sessions⟩

/-- Second statement of `markLive` (src/index.js lines 111-123): insert an
open session only if no row with `ended_at is null` exists (the SQL
`where not exists` guard). -/
def insertSessionIfNoneOpen (c : Creator) (t : Nat) (s : Store) : Store :=
  if s.sessions.any (fun row => row.ended_at.isNone) then s
  else ⟨s.live_now, s.sessions ++ [⟨c.tiktok_username, t, none, none⟩]⟩

/-- `markLive` (src/index.js lines 86-124): the `live_now` upsert followed by
the guarded session insert. -/
def markLive (c : Creator) (t : Nat) (s : Store) : Store :=
  insertSessionIfNoneOpen c t (upsertLiveNow c t s)

/-- The session-closing update of `markNotLiveCandidate` (src/index.js lines
147-156): set `ended_at = now(), updated_at = now()` on every row with
`ended_at is null`. -/
def closeOpenSessions (t : Nat) (l : List SessionRow) : List SessionRow :=
  l.map fun row =>
    if row.ended_at.isNone then { row with ended_at := some t, updated_at := some t }
    else row

/-- `markNotLiveCandidate` (src/index.js lines 126-160): increment
`miss_count` returning the new value; if no `live_now` row exists, return
with no change; if the new count is below the threshold `T`, keep the
updated row; otherwise close every open session and delete the `live_now`
row. -/
def markNotLiveCandidate (T : Nat) (t : Nat) (s : Store) : Store :=
  match s.live_now with
  | none => s
  | some r =>
    let m := r.miss_count + 1
    if m < T then
      ⟨some { r with miss_count := m, last_check_at := t, updated_at := t }, s.sessions⟩
    else
      ⟨none, closeOpenSessions t s.sessions⟩

/-- Tri-state probe outcome: `fetchIsLive` returned truthy, returned falsy,
or threw (§2 of the spec calls these Live / Offline / Unknown). -/
inductive ProbeResult
  | live
  | offline
  | unknown
deriving Repr, DecidableEq

/-- The per-entity dispatch in `pollOnce` (src/index.js lines 185-195):
truthy probe runs `markLive`, falsy runs `markNotLiveCandidate`, and a
thrown probe is caught without touching the store. -/
def processProbe (T : Nat) (c : Creator) (p : ProbeResult) (t : Nat) (s : Store) : Store :=
  match p with
  | .live => markLive c t s
  | .offline => markNotLiveCandidate T t s
  | .unknown => s

/-- Apply a sequence of (probe result, time) events for one entity, in order. -/
def runProbes (T : Nat) (c : Creator) (evs : List (ProbeResult × Nat)) (s : Store) : Store :=
  evs.foldl (fun st e => processProbe T c e.1 e.2 st) s

/-- Apply a run of consecutive Offline probes at the given times. -/
def offlineRun (T : Nat) (ts : List Nat) (s : Store) : Store :=
  ts.foldl (fun st t => markNotLiveCandidate T t st) s

/-- A JavaScript value as far as Boolean coercion distinguishes it; `jsNum`
carries an integer (the client returns no fractional liveness values that
matter for truthiness other than 0). -/
inductive JSValue
  | jsBool (b : Bool)
  | jsNull
  | jsUndefined
  | jsNum (n : Int)
  | jsStr (s : String)
  | jsObj
deriving Repr, DecidableEq

/-- JavaScript `Boolean(x)` on the modelled values: `false`, `null`,
`undefined`, `0` and `""` are falsy, everything else truthy. -/
def jsBooleanCoerce : JSValue → Bool
  | .jsBool b => b
  | .jsNull => false
  | .jsUndefined => false
  | .jsNum n => decide (n ≠ 0)
  | .jsStr s => decide (s ≠ "")
  | .jsObj => true

/-- `isLive` (src/index.js lines 75-84): `Boolean(await conn.fetchIsLive())`;
a throw from the client propagates, any returned value is coerced. -/
def isLive (resp : Except String JSValue) : Except String Bool :=
  resp.map jsBooleanCoerce

/-- The tri-state outcome of one probe attempt as `pollOnce` consumes it:
a coerced true is Live, a coerced false is Offline, a throw is Unknown. -/
def classifyProbe (resp : Except String JSValue) : ProbeResult :=
  match isLive resp with
  | .ok true => .live
  | .ok false => .offline
  | .error _ => .unknown

/-- The per-entity worker body of `pollOnce` (src/index.js lines 185-195):
probe, then branch on the coerced result; the surrounding try/catch turns a
throw into no store access at all. -/
def checkCreator (T : Nat) (c : Creator) (resp : Except String JSValue) (t : Nat)
    (s : Store) : Store :=
  processProbe T c (classifyProbe resp) t s

/-- The whole database, keyed by creator_id. -/
abbrev GlobalStore := String → Store

/-- Overwrite one entity's slice of the database. -/
def updateEntity (g : GlobalStore) (k : String) (s : Store) : GlobalStore :=
  fun k' => if k' = k then s else g k'

/-- One worker task of a polling cycle: probe creator `c` and apply the
state machine to its own slice of the store only. -/
def cycleStep (T : Nat) (probe : Creator → Except String JSValue) (t : Nat)
    (g : GlobalStore) (c : Creator) : GlobalStore :=
  updateEntity g c.creator_id (checkCreator T c (probe c) t (g c.creator_id))

/-- The dispatch loop of `pollOnce` over the fetched creator list
(src/index.js lines 180-198).  Each per-entity task touches only its own
key, so the sequential fold is faithful for per-entity state. -/
def pollCycle (T : Nat) (probe : Creator → Except String JSValue)
    (creators : List Creator) (t : Nat) (g : GlobalStore) : GlobalStore :=
  creators.foldl (cycleStep T probe t) g

/-- `pollOnce` (src/index.js lines 166-199): fetch the creator list; on a
fetch error log and return (no entity probed, no store touched); otherwise
dispatch every creator in fetched order.  The second component is the list
of usernames probed, in dispatch order. -/
def pollOnce (T : Nat) (fetch : Except String (List Creator))
    (probe : Creator → Except String JSValue) (t : Nat) (g : GlobalStore) :
    GlobalStore × List String :=
  match fetch with
  | .error _ => (g, [])
  | .ok creators =>
    (pollCycle T probe creators t g, creators.map fun c => c.tiktok_username)

/-- `markLive` with a fault injected between its two SQL statements: the
`live_now` upsert commits, the session insert throws.  The Boolean result
records whether an error escaped to the per-entity catch.  There is no
transaction around the two statements in src/index.js lines 86-124. -/
def markLiveWithFault (failAfterFirst : Bool) (c : Creator) (t : Nat) (s : Store) :
    Store × Bool :=
  let s1 := upsertLiveNow c t s
  if failAfterFirst then (s1, true)
  else (insertSessionIfNoneOpen c t s1, false)

/-- The worker body when the probe came back truthy and the session-insert
statement of `markLive` throws: the catch in `pollOnce` (src/index.js lines
192-195) swallows the error, leaving whatever the first statement wrote. -/
def checkCreatorLiveFault (failAfterFirst : Bool) (c : Creator) (t : Nat)
    (s : Store) : Store :=
  (markLiveWithFault failAfterFirst c t s).1

/-- Events seen by the interval scheduler: a timer tick, or some running
`pollOnce` cycle finishing. -/
inductive SchedEvent
  | tick
  | cycleEnded
deriving Repr, DecidableEq

/-- Whether the `setInterval` callback in `main` (src/index.js lines
213-217) launches a cycle given how many cycles are still in flight: the
callback body is `pollOnce().catch(...)` unconditionally — it consults no
busy flag, so it launches regardless. -/
def tickStartsCycle (_running : Nat) : Bool := true

/-- Scheduler transition on the number of in-flight cycles: a tick starts a
cycle whenever `tickStartsCycle` says so; a cycle ending retires one. -/
def schedStep (running : Nat) : SchedEvent → Nat
  | .tick => if tickStartsCycle running then running + 1 else running
  | .cycleEnded => running - 1

/-- Number of in-flight cycles after a sequence of scheduler events,
starting idle. -/
def schedRun (evs : List SchedEvent) : Nat :=
  evs.foldl schedStep 0

/-- The body of the JS swap `[a[i], a[j]] = [a[j], a[i]]`: both reads happen
before both writes; out-of-range indices leave the list unchanged. -/
def swapAt (l : List α) (i j : Nat) : List α :=
  match l[i]?, l[j]? with
  | some a, some b => (l.set i b).set j a
  | _, _ => l

/-- The loop of `shuffleArray` (src/unnamed/part_002 lines 29-34), counting
`i` down; `rand i` stands for the `Math.random()` draw at index `i`, reduced
mod `i+1` to the JS `Math.floor(Math.random() * (i + 1))`. -/
def shuffleGo (rand : Nat → Nat) : Nat → List α → List α
  | 0, l => l
  | i + 1, l => shuffleGo rand i (swapAt l (i + 1) (rand (i + 1) % (i + 2)))

/-- `shuffleArray` (src/unnamed/part_002 lines 29-34): in-place Fisher-Yates
driven by the random draws `rand`. -/
def shuffleArray (rand : Nat → Nat) (l : List α) : List α :=
  shuffleGo rand (l.length - 1) l

/-- `pollOnce` of the part_002 variant (src/unnamed/part_002 lines 164-187):
like the src/index.js cycle but the fetched list is shuffled before
dispatch (`runWithConcurrency` pulls items in array order). -/
def pollOnce002 (T : Nat) (fetch : Except String (List Creator)) (rand : Nat → Nat)
    (probe : Creator → Except String JSValue) (t : Nat) (g : GlobalStore) :
    GlobalStore × List String :=
  match fetch with
  | .error _ => (g, [])
  | .ok creators =>
    let shuffled := shuffleArray rand creators
    (pollCycle T probe shuffled t g, shuffled.map fun c => c.tiktok_username)

-- Sanity checks (concrete scenario, threshold 2, spec §8)
example :
    runProbes 2 ⟨"e", "u"⟩ [(.live, 1), (.offline, 2), (.offline, 3)] emptyStore
      = ⟨none, [⟨"u", 1, some 3, some 3⟩]⟩ := by decide

example :
    runProbes 2 ⟨"e", "u"⟩ [(.live, 1), (.offline, 2), (.live, 3)] emptyStore
      = ⟨some ⟨"u", 1, 3, 3, 0, 3⟩, [⟨"u", 1, none, none⟩]⟩ := by decide

/-- The `live_now` upsert does not touch the sessions table. -/
theorem upsertLiveNow_sessions (c : Creator) (t : Nat) (s : Store) :
    (upsertLiveNow c t s).sessions = s.sessions := by
  cases s with
  | mk ln sess => cases ln <;> rfl

/-- The guarded session insert does not touch the `live_now` row. -/
theorem insertSessionIfNoneOpen_live_now (c : Creator) (t : Nat) (s : Store) :
    (insertSessionIfNoneOpen c t s).live_now = s.live_now := by
  unfold insertSessionIfNoneOpen
  split <;> rfl

/-- The open-session count is zero exactly when the SQL `exists` guard of
`markLive` finds no open row. -/
theorem openSessionCount_eq_zero_iff (l : List SessionRow) :
    openSessionCount l = 0 ↔ (l.any fun row => row.ended_at.isNone) = false := by
  simp [openSessionCount, List.countP_eq_zero, List.any_eq_false]

/-- Sessions after `markLive`: unchanged when an open session exists,
otherwise one fresh open row is appended. -/
theorem markLive_sessions (c : Creator) (t : Nat) (s : Store) :
    (markLive c t s).sessions =
      if (s.sessions.any fun row => row.ended_at.isNone) = true then s.sessions
      else s.sessions ++ [⟨c.tiktok_username, t, none, none⟩] := by
  unfold markLive insertSessionIfNoneOpen
  rw [upsertLiveNow_sessions]
  split <;> simp [upsertLiveNow_sessions]

/-- The `live_now` row after `markLive` when the entity was NotTracked. -/
theorem markLive_live_now_none (c : Creator) (t : Nat) (s : Store)
    (h : s.live_now = none) :
    (markLive c t s).live_now = some ⟨c.tiktok_username, t, t, t, 0, t⟩ := by
  unfold markLive
  rw [insertSessionIfNoneOpen_live_now]
  simp [upsertLiveNow, h]

/-- The `live_now` row after `markLive` on conflict: timestamps refreshed,
`miss_count` reset, `went_live_at` preserved. -/
theorem markLive_live_now_some (c : Creator) (t : Nat) (s : Store) (r : LiveNowRow)
    (h : s.live_now = some r) :
    (markLive c t s).live_now =
      some { r with
        tiktok_username := c.tiktok_username
        last_seen_live_at := t
        last_check_at := t
        miss_count := 0
        updated_at := t } := by
  unfold markLive
  rw [insertSessionIfNoneOpen_live_now]
  simp [upsertLiveNow, h]

/-- `markNotLiveCandidate` with no `live_now` row returns without change. -/
theorem markNotLiveCandidate_none (T t : Nat) (s : Store) (h : s.live_now = none) :
    markNotLiveCandidate T t s = s := by
  simp [markNotLiveCandidate, h]

/-- `markNotLiveCandidate` below the threshold: only the `live_now` row is
updated, the sessions table is untouched. -/
theorem markNotLiveCandidate_below (T t : Nat) (s : Store) (r : LiveNowRow)
    (h : s.live_now = some r) (hm : r.miss_count + 1 < T) :
    markNotLiveCandidate T t s =
      ⟨some { r with miss_count := r.miss_count + 1, last_check_at := t, updated_at := t },
        s.sessions⟩ := by
  simp [markNotLiveCandidate, h, hm]

/-- `markNotLiveCandidate` reaching the threshold: every open session is
closed and the `live_now` row is deleted. -/
theorem markNotLiveCandidate_at (T t : Nat) (s : Store) (r : LiveNowRow)
    (h : s.live_now = some r) (hm : ¬ r.miss_count + 1 < T) :
    markNotLiveCandidate T t s = ⟨none, closeOpenSessions t s.sessions⟩ := by
  simp [markNotLiveCandidate, h, hm]

/-- After the closing update, no session is open. -/
theorem openSessionCount_close (t : Nat) (l : List SessionRow) :
    openSessionCount (closeOpenSessions t l) = 0 := by
  induction l with
  | nil => rfl
  | cons hd tl ih =>
    unfold openSessionCount closeOpenSessions at ih ⊢
    simp only [List.map_cons, List.countP_cons, ih]
    cases h : hd.ended_at <;> simp [h]

/-- Appending one open row raises the open-session count by one. -/
theorem openSessionCount_append_open (l : List SessionRow) (u : String) (t : Nat) :
    openSessionCount (l ++ [⟨u, t, none, none⟩]) = openSessionCount l + 1 := by
  simp [openSessionCount, List.countP_append]

/-- One probe step preserves "at most one open session". -/
theorem processProbe_open_le_one (T : Nat) (c : Creator) (p : ProbeResult)
    (t : Nat) (s : Store) (h : openSessionCount s.sessions ≤ 1) :
    openSessionCount (processProbe T c p t s).sessions ≤ 1 := by
  cases p with
  | unknown => exact h
  | live =>
    show openSessionCount (markLive c t s).sessions ≤ 1
    rw [markLive_sessions]
    split
    · exact h
    · rename_i hany
      have h0 : openSessionCount s.sessions = 0 :=
        (openSessionCount_eq_zero_iff s.sessions).mpr (by
          cases hcond : s.sessions.any fun row => row.ended_at.isNone
          · rfl
          · exact absurd hcond hany)
      rw [openSessionCount_append_open, h0]
  | offline =>
    show openSessionCount (markNotLiveCandidate T t s).sessions ≤ 1
    cases hl : s.live_now with
    | none => rw [markNotLiveCandidate_none T t s hl]; exact h
    | some r =>
      by_cases hm : r.miss_count + 1 < T
      · rw [markNotLiveCandidate_below T t s r hl hm]; exact h
      · rw [markNotLiveCandidate_at T t s r hl hm]
        simp [openSessionCount_close]

/-- Folding probe events preserves "at most one open session". -/
theorem runProbes_open_le_one (T : Nat) (c : Creator) :
    ∀ (evs : List (ProbeResult × Nat)) (s : Store),
      openSessionCount s.sessions ≤ 1 →
      openSessionCount (runProbes T c evs s).sessions ≤ 1 := by
  intro evs
  induction evs with
  | nil => intro s h; exact h
  | cons e tl ih =>
    intro s h
    exact ih (processProbe T c e.1 e.2 s) (processProbe_open_le_one T c e.1 e.2 s h)

/-- A run of consecutive Offline probes that stays strictly below the
threshold only increments `miss_count` and refreshes check timestamps; the
username and `went_live_at` of the `live_now` row and the whole sessions
table are unchanged. -/
theorem offlineRun_below (T : Nat) :
    ∀ (ts : List Nat) (s : Store) (r : LiveNowRow),
      s.live_now = some r → r.miss_count + ts.length < T →
      ∃ r', (offlineRun T ts s).live_now = some r'
        ∧ r'.miss_count = r.miss_count + ts.length
        ∧ r'.tiktok_username = r.tiktok_username
        ∧ r'.went_live_at = r.went_live_at
        ∧ (offlineRun T ts s).sessions = s.sessions := by
  intro ts
  induction ts with
  | nil =>
    intro s r h _
    exact ⟨r, h, by simp, rfl, rfl, rfl⟩
  | cons t tl ih =>
    intro s r h hlt
    have hlen : r.miss_count + (t :: tl).length = r.miss_count + 1 + tl.length := by
      simp; omega
    have h1 : r.miss_count + 1 < T := by
      rw [hlen] at hlt; omega
    have hstep := markNotLiveCandidate_below T t s r h h1
    have hfold : offlineRun T (t :: tl) s = offlineRun T tl (markNotLiveCandidate T t s) := rfl
    rw [hfold, hstep]
    obtain ⟨r', hr', hm', hu', hw', hs'⟩ :=
      ih ⟨some { r with miss_count := r.miss_count + 1, last_check_at := t, updated_at := t },
            s.sessions⟩
        { r with miss_count := r.miss_count + 1, last_check_at := t, updated_at := t }
        rfl (by simp; rw [hlen] at hlt; omega)
    refine ⟨r', hr', ?_, ?_, ?_, hs'⟩
    · simp at hm'
      rw [hm', hlen]
    · simpa using hu'
    · simpa using hw'

/-- A worker task for creator `c` leaves every other entity's slice alone. -/
theorem cycleStep_locality (T : Nat) (probe : Creator → Except String JSValue)
    (t : Nat) (g : GlobalStore) (c : Creator) (k : String)
    (hk : k ≠ c.creator_id) :
    cycleStep T probe t g c k = g k := by
  unfold cycleStep updateEntity
  simp [hk]

/-- If two database states agree everywhere except possibly at key `i`, a
polling cycle keeps that agreement (each worker task reads and writes only
its own key). -/
theorem pollCycle_agree_off (T : Nat) (probe : Creator → Except String JSValue)
    (t : Nat) (i : String) :
    ∀ (creators : List Creator) (g1 g2 : GlobalStore),
      (∀ k, k ≠ i → g1 k = g2 k) →
      ∀ k, k ≠ i → pollCycle T probe creators t g1 k = pollCycle T probe creators t g2 k := by
  intro creators
  induction creators with
  | nil => intro g1 g2 hag k hk; exact hag k hk
  | cons d tl ih =>
    intro g1 g2 hag k hk
    refine ih (cycleStep T probe t g1 d) (cycleStep T probe t g2 d) ?_ k hk
    intro k' hk'
    unfold cycleStep updateEntity
    by_cases hd : k' = d.creator_id
    · subst hd
      simp
      rw [hag _ hk']
    · simp [hd]
      exact hag k' hk'

/-- Removing one creator from the dispatch list changes nothing at any other
key: its task is confined to its own creator_id. -/
theorem pollCycle_isolates (T : Nat) (probe : Creator → Except String JSValue)
    (t : Nat) :
    ∀ (l1 l2 : List Creator) (c : Creator) (g : GlobalStore) (k : String),
      k ≠ c.creator_id →
      pollCycle T probe (l1 ++ c :: l2) t g k = pollCycle T probe (l1 ++ l2) t g k := by
  intro l1
  induction l1 with
  | nil =>
    intro l2 c g k hk
    have hag : ∀ k', k' ≠ c.creator_id → (cycleStep T probe t g c) k' = g k' :=
      fun k' hk' => cycleStep_locality T probe t g c k' hk'
    exact pollCycle_agree_off T probe t c.creator_id l2 (cycleStep T probe t g c) g hag k hk
  | cons d tl ih =>
    intro l2 c g k hk
    exact ih l2 c (cycleStep T probe t g d) k hk

/-- Moving the element at position `k` of `xs` to the head while writing `x`
into position `k` permutes pushing `x` at the head. -/
theorem cons_set_perm {α : Type} :
    ∀ (xs : List α) (k : Nat) (x b : α),
      xs[k]? = some b → List.Perm (b :: xs.set k x) (x :: xs) := by
  intro xs
  induction xs with
  | nil => intro k x b h; simp at h
  | cons y ys ih =>
    intro k x b h
    cases k with
    | zero =>
      simp at h
      subst h
      simp only [List.set_cons_zero]
      exact List.Perm.swap _ _ _
    | succ m =>
      simp at h
      simp only [List.set_cons_succ]
      refine ((List.Perm.swap y b (ys.set m x)).trans ?_).trans (List.Perm.swap x y ys)
      exact List.Perm.cons y (ih m x b h)

/-- Writing each of two in-range elements over the other permutes the list. -/
theorem set_set_perm {α : Type} :
    ∀ (l : List α) (i j : Nat) (a b : α),
      l[i]? = some a → l[j]? = some b → List.Perm ((l.set i b).set j a) l := by
  intro l
  induction l with
  | nil => intro i j a b h _; simp at h
  | cons x xs ih =>
    intro i j a b ha hb
    cases i with
    | zero =>
      simp at ha
      subst ha
      cases j with
      | zero =>
        simp at hb
        subst hb
        simp only [List.set_cons_zero]
        exact List.Perm.refl _
      | succ m =>
        simp at hb
        simp only [List.set_cons_zero, List.set_cons_succ]
        exact cons_set_perm xs m _ b hb
    | succ n =>
      cases j with
      | zero =>
        simp at ha hb
        subst hb
        simp only [List.set_cons_zero, List.set_cons_succ]
        exact cons_set_perm xs n _ a ha
      | succ m =>
        simp at ha hb
        simp only [List.set_cons_succ]
        exact List.Perm.cons x (ih n m a b ha hb)

/-- One JS swap is a permutation of the list. -/
theorem swapAt_perm {α : Type} (l : List α) (i j : Nat) :
    List.Perm (swapAt l i j) l := by
  unfold swapAt
  split
  · rename_i a b hi hj
    exact set_set_perm l i j a b hi hj
  · exact List.Perm.refl l

/-- The Fisher-Yates loop is a permutation of its input. -/
theorem shuffleGo_perm {α : Type} (rand : Nat → Nat) :
    ∀ (n : Nat) (l : List α), List.Perm (shuffleGo rand n l) l := by
  intro n
  induction n with
  | zero => intro l; exact List.Perm.refl l
  | succ m ih =>
    intro l
    exact (ih (swapAt l (m + 1) (rand (m + 1) % (m + 2)))).trans
      (swapAt_perm l (m + 1) (rand (m + 1) % (m + 2)))

/-- `shuffleArray` returns a permutation of its input: no entity is lost or
duplicated by the shuffle. -/
theorem shuffleArray_perm {α : Type} (rand : Nat → Nat) (l : List α) :
    List.Perm (shuffleArray rand l) l :=
  shuffleGo_perm rand (l.length - 1) l

/-- C1: starting from the empty store, any sequence of Live/Offline/Unknown
probe events applied by the state machine leaves at most one SessionRecord
with `ended_at = null`; every intermediate state is `runProbes` of a prefix
of the (universally quantified) event list, so at no point do two open
sessions coexist. -/
theorem C1_at_most_one_open_session (T : Nat) (c : Creator)
    (evs : List (ProbeResult × Nat)) :
    openSessionCount (runProbes T c evs emptyStore).sessions ≤ 1 :=
  runProbes_open_le_one T c evs emptyStore (by decide)

/-- C2: with threshold `T ≥ 1`, from a state whose `live_now` row has
`miss_count = 0` and one open session, `T - 1` consecutive Offline probes
leave `miss_count = T - 1` and the sessions table (hence the open session)
untouched; the T-th Offline probe closes every open session and deletes the
`live_now` row; a further Offline probe on the now-NotTracked entity
changes nothing. -/
theorem C2_hysteresis_threshold_crossing (T : Nat) (s : Store) (r : LiveNowRow)
    (ts : List Nat) (t2 t3 : Nat)
    (hT : 1 ≤ T) (hr : s.live_now = some r) (hm : r.miss_count = 0)
    (hlen : ts.length = T - 1) (hopen : openSessionCount s.sessions = 1) :
    (∃ r', (offlineRun T ts s).live_now = some r' ∧ r'.miss_count = T - 1)
    ∧ (offlineRun T ts s).sessions = s.sessions
    ∧ openSessionCount (offlineRun T ts s).sessions = 1
    ∧ markNotLiveCandidate T t2 (offlineRun T ts s)
        = ⟨none, closeOpenSessions t2 s.sessions⟩
    ∧ openSessionCount (closeOpenSessions t2 s.sessions) = 0
    ∧ markNotLiveCandidate T t3 ⟨none, closeOpenSessions t2 s.sessions⟩
        = ⟨none, closeOpenSessions t2 s.sessions⟩ := by
  have hlt : r.miss_count + ts.length < T := by rw [hm, hlen]; omega
  obtain ⟨r', hr', hm', hu', hw', hs'⟩ := offlineRun_below T ts s r hr hlt
  have hmiss : r'.miss_count = T - 1 := by rw [hm', hm, hlen]; omega
  have hTT : ¬ r'.miss_count + 1 < T := by omega
  have hclose := markNotLiveCandidate_at T t2 (offlineRun T ts s) r' hr' hTT
  refine ⟨⟨r', hr', hmiss⟩, hs', ?_, ?_, ?_, ?_⟩
  · rw [hs', hopen]
  · rw [hclose, hs']
  · exact openSessionCount_close t2 s.sessions
  · exact markNotLiveCandidate_none T t3 _ rfl

/-- C2 witness: threshold 2, a freshly-live entity, one Offline probe keeps
the session open at miss 1, the second closes it and deletes `live_now`,
the third is a no-op. -/
theorem C2_hysteresis_threshold_crossing_witness :
    (∃ r', (offlineRun 2 [2]
        (⟨some ⟨"u", 1, 1, 1, 0, 1⟩, [⟨"u", 1, none, none⟩]⟩ : Store)).live_now = some r'
      ∧ r'.miss_count = 2 - 1)
    ∧ (offlineRun 2 [2]
        (⟨some ⟨"u", 1, 1, 1, 0, 1⟩, [⟨"u", 1, none, none⟩]⟩ : Store)).sessions
        = (⟨some ⟨"u", 1, 1, 1, 0, 1⟩, [⟨"u", 1, none, none⟩]⟩ : Store).sessions
    ∧ openSessionCount (offlineRun 2 [2]
        (⟨some ⟨"u", 1, 1, 1, 0, 1⟩, [⟨"u", 1, none, none⟩]⟩ : Store)).sessions = 1
    ∧ markNotLiveCandidate 2 3 (offlineRun 2 [2]
        (⟨some ⟨"u", 1, 1, 1, 0, 1⟩, [⟨"u", 1, none, none⟩]⟩ : Store))
        = ⟨none, closeOpenSessions 3
            (⟨some ⟨"u", 1, 1, 1, 0, 1⟩, [⟨"u", 1, none, none⟩]⟩ : Store).sessions⟩
    ∧ openSessionCount (closeOpenSessions 3
        (⟨some ⟨"u", 1, 1, 1, 0, 1⟩, [⟨"u", 1, none, none⟩]⟩ : Store).sessions) = 0
    ∧ markNotLiveCandidate 2 4 ⟨none, closeOpenSessions 3
        (⟨some ⟨"u", 1, 1, 1, 0, 1⟩, [⟨"u", 1, none, none⟩]⟩ : Store).sessions⟩
        = ⟨none, closeOpenSessions 3
            (⟨some ⟨"u", 1, 1, 1, 0, 1⟩, [⟨"u", 1, none, none⟩]⟩ : Store).sessions⟩ :=
  C2_hysteresis_threshold_crossing 2 ⟨some ⟨"u", 1, 1, 1, 0, 1⟩, [⟨"u", 1, none, none⟩]⟩
    ⟨"u", 1, 1, 1, 0, 1⟩ [2] 3 4 (by decide) rfl rfl rfl (by decide)

/-- C3: for a previously-NotTracked entity, the first `markLive` creates the
`live_now` row (miss 0) and exactly one open session; the second `markLive`
leaves the sessions table identical and only refreshes the check/seen
timestamps of the `live_now` row (username, `went_live_at` and `miss_count`
are preserved). -/
theorem C3_idempotent_markLive (c : Creator) (t1 t2 : Nat) (s : Store)
    (h1 : s.live_now = none) (h2 : openSessionCount s.sessions = 0) :
    markLive c t1 s
      = ⟨some ⟨c.tiktok_username, t1, t1, t1, 0, t1⟩,
          s.sessions ++ [⟨c.tiktok_username, t1, none, none⟩]⟩
    ∧ openSessionCount (markLive c t1 s).sessions = 1
    ∧ markLive c t2 (markLive c t1 s)
      = ⟨some ⟨c.tiktok_username, t1, t2, t2, 0, t2⟩, (markLive c t1 s).sessions⟩
    ∧ openSessionCount (markLive c t2 (markLive c t1 s)).sessions = 1 := by
  have hany : (s.sessions.any fun row => row.ended_at.isNone) = false :=
    (openSessionCount_eq_zero_iff s.sessions).mp h2
  have hl1 := markLive_live_now_none c t1 s h1
  have hs1 : (markLive c t1 s).sessions
      = s.sessions ++ [⟨c.tiktok_username, t1, none, none⟩] := by
    simp [markLive_sessions, hany]
  have hfull1 : markLive c t1 s
      = ⟨some ⟨c.tiktok_username, t1, t1, t1, 0, t1⟩,
          s.sessions ++ [⟨c.tiktok_username, t1, none, none⟩]⟩ := by
    calc markLive c t1 s
        = ⟨(markLive c t1 s).live_now, (markLive c t1 s).sessions⟩ := rfl
      _ = _ := by rw [hl1, hs1]
  have hcount1 : openSessionCount (markLive c t1 s).sessions = 1 := by
    rw [hs1, openSessionCount_append_open, h2]
  have hany2 : ((markLive c t1 s).sessions.any fun row => row.ended_at.isNone) = true := by
    rw [hs1]
    simp [List.any_append]
  have hl2 : (markLive c t2 (markLive c t1 s)).live_now
      = some ⟨c.tiktok_username, t1, t2, t2, 0, t2⟩ :=
    markLive_live_now_some c t2 (markLive c t1 s) ⟨c.tiktok_username, t1, t1, t1, 0, t1⟩ hl1
  have hs2 : (markLive c t2 (markLive c t1 s)).sessions = (markLive c t1 s).sessions := by
    rw [markLive_sessions]
    split
    · rfl
    · rename_i hno
      exact absurd hany2 hno
  refine ⟨hfull1, hcount1, ?_, ?_⟩
  · calc markLive c t2 (markLive c t1 s)
        = ⟨(markLive c t2 (markLive c t1 s)).live_now,
            (markLive c t2 (markLive c t1 s)).sessions⟩ := rfl
      _ = _ := by rw [hl2, hs2]
  · rw [hs2, hcount1]

/-- C3 witness: both applications evaluated at a concrete creator from the
empty store. -/
theorem C3_idempotent_markLive_witness :
    markLive ⟨"e1", "u1"⟩ 1 emptyStore
      = ⟨some ⟨"u1", 1, 1, 1, 0, 1⟩, emptyStore.sessions ++ [⟨"u1", 1, none, none⟩]⟩
    ∧ openSessionCount (markLive ⟨"e1", "u1"⟩ 1 emptyStore).sessions = 1
    ∧ markLive ⟨"e1", "u1"⟩ 2 (markLive ⟨"e1", "u1"⟩ 1 emptyStore)
      = ⟨some ⟨"u1", 1, 2, 2, 0, 2⟩, (markLive ⟨"e1", "u1"⟩ 1 emptyStore).sessions⟩
    ∧ openSessionCount
        (markLive ⟨"e1", "u1"⟩ 2 (markLive ⟨"e1", "u1"⟩ 1 emptyStore)).sessions = 1 :=
  C3_idempotent_markLive ⟨"e1", "u1"⟩ 1 2 emptyStore rfl rfl

/-- C4: an Unknown probe — the prober throwing — issues no store mutation at
all: the per-entity worker returns the store exactly as it was, whatever
the current state (NotTracked, Live or OfflinePending). -/
theorem C4_unknown_is_neutral :
    (∀ e : String, classifyProbe (Except.error e) = ProbeResult.unknown)
    ∧ (∀ (T : Nat) (c : Creator) (t : Nat) (s : Store),
        processProbe T c ProbeResult.unknown t s = s)
    ∧ (∀ (T : Nat) (c : Creator) (e : String) (t : Nat) (s : Store),
        checkCreator T c (Except.error e) t s = s) :=
  ⟨fun _ => rfl, fun _ _ _ _ => rfl, fun _ _ _ _ _ => rfl⟩

/-- C5: a Live probe always resets `miss_count` to 0; in the concrete
recovery scenario [Live, Offline, Live] with threshold 2 the session opened
at step 1 is still the only session and still open after every step; and
from NotTracked (all prior sessions closed) `markLive` appends a fresh open
SessionRecord that equals none of the prior closed ones. -/
theorem C5_live_resets_miss (c : Creator) (t : Nat) (s : Store) :
    (∃ r, (markLive c t s).live_now = some r ∧ r.miss_count = 0)
    ∧ runProbes 2 ⟨"e1", "u1"⟩ [(.live, 1), (.offline, 2), (.live, 3)] emptyStore
        = ⟨some ⟨"u1", 1, 3, 3, 0, 3⟩, [⟨"u1", 1, none, none⟩]⟩
    ∧ (runProbes 2 ⟨"e1", "u1"⟩ [(.live, 1), (.offline, 2)] emptyStore).sessions
        = [⟨"u1", 1, none, none⟩]
    ∧ (s.live_now = none → openSessionCount s.sessions = 0 →
        (markLive c t s).sessions = s.sessions ++ [⟨c.tiktok_username, t, none, none⟩]
        ∧ (⟨c.tiktok_username, t, none, none⟩ : SessionRow) ∉ s.sessions) := by
  refine ⟨?_, by decide, by decide, ?_⟩
  · cases hl : s.live_now with
    | none => exact ⟨_, markLive_live_now_none c t s hl, rfl⟩
    | some r => exact ⟨_, markLive_live_now_some c t s r hl, rfl⟩
  · intro h1 h2
    have hany : (s.sessions.any fun row => row.ended_at.isNone) = false :=
      (openSessionCount_eq_zero_iff s.sessions).mp h2
    constructor
    · simp [markLive_sessions, hany]
    · intro hmem
      have h2' : s.sessions.countP (fun row => row.ended_at.isNone) = 0 := h2
      have hnot := List.countP_eq_zero.mp h2' _ hmem
      simp at hnot

/-- C5 witness: the fresh-session part applied from the empty store. -/
theorem C5_live_resets_miss_witness :
    (markLive ⟨"e1", "u1"⟩ 5 emptyStore).sessions
      = emptyStore.sessions ++ [⟨"u1", 5, none, none⟩]
    ∧ (⟨"u1", 5, none, none⟩ : SessionRow) ∉ emptyStore.sessions :=
  (C5_live_resets_miss ⟨"e1", "u1"⟩ 5 emptyStore).2.2.2 rfl rfl

/-- C6 counterexample: probe truthy, the session-insert statement of
`markLive` throws after the `live_now` upsert committed; the per-entity
catch swallows the error, yet the stored state after the failed processing
differs from the state before it — the failed processing is not atomic and
is not equivalent to an Unknown probe. -/
theorem C6_counterexample :
    checkCreatorLiveFault true ⟨"e1", "u1"⟩ 5 emptyStore ≠ emptyStore := by
  decide

/-- C6 (amended): a per-entity error is caught at the per-entity boundary: a
prober throw leaves the entity's store untouched; a worker task never
writes any other entity's key; dropping one (e.g. failing) entity from the
dispatch list changes nothing at any other key, so the cycle proceeds for
all other entities; but when a store statement inside `markLive` fails, the
mutations already issued persist — there is no rollback. -/
theorem C6_amended_error_isolation :
    (∀ (T : Nat) (c : Creator) (e : String) (t : Nat) (s : Store),
        checkCreator T c (Except.error e) t s = s)
    ∧ (∀ (T : Nat) (probe : Creator → Except String JSValue) (t : Nat)
        (g : GlobalStore) (c : Creator) (k : String), k ≠ c.creator_id →
        cycleStep T probe t g c k = g k)
    ∧ (∀ (T : Nat) (probe : Creator → Except String JSValue) (t : Nat)
        (g : GlobalStore) (l1 l2 : List Creator) (c : Creator) (k : String),
        k ≠ c.creator_id →
        pollCycle T probe (l1 ++ c :: l2) t g k = pollCycle T probe (l1 ++ l2) t g k)
    ∧ (∀ (c : Creator) (t : Nat) (s : Store),
        checkCreatorLiveFault true c t s = upsertLiveNow c t s) :=
  ⟨fun _ _ _ _ _ => rfl,
   fun T probe t g c k hk => cycleStep_locality T probe t g c k hk,
   fun T probe t g l1 l2 c k hk => pollCycle_isolates T probe t l1 l2 c g k hk,
   fun _ _ _ => rfl⟩

/-- C6 witness: isolation applied at concrete keys and a concrete failing
creator. -/
theorem C6_amended_error_isolation_witness :
    cycleStep 2 (fun _ => Except.error "down") 0 (fun _ => emptyStore) ⟨"e1", "u1"⟩ "e2"
      = (fun _ => emptyStore : GlobalStore) "e2"
    ∧ pollCycle 2 (fun _ => Except.error "down") ([] ++ ⟨"e1", "u1"⟩ :: [⟨"e3", "u3"⟩]) 0
        (fun _ => emptyStore) "e3"
      = pollCycle 2 (fun _ => Except.error "down") ([] ++ [⟨"e3", "u3"⟩]) 0
        (fun _ => emptyStore) "e3" :=
  ⟨C6_amended_error_isolation.2.1 2 (fun _ => Except.error "down") 0 (fun _ => emptyStore)
      ⟨"e1", "u1"⟩ "e2" (by decide),
   C6_amended_error_isolation.2.2.1 2 (fun _ => Except.error "down") 0 (fun _ => emptyStore)
      [] [⟨"e3", "u3"⟩] ⟨"e1", "u1"⟩ "e3" (by decide)⟩

/-- C7: when the Entity Source fetch fails, `pollOnce` returns at once: the
database is untouched, no entity is probed (the probed list is empty), and
the error is consumed rather than propagated, so the interval timer simply
fires again next tick. -/
theorem C7_fetch_failure_aborts_cycle (T : Nat)
    (probe : Creator → Except String JSValue) (t : Nat) (g : GlobalStore)
    (msg : String) :
    pollOnce T (Except.error msg) probe t g = (g, []) := rfl

/-- C8 counterexample: two timer ticks with no cycle completion in between
leave two cycles in flight (`schedRun [tick, tick] = 2`), refuting "the
scheduler never starts a new polling cycle while the previous cycle is
still running". -/
theorem C8_counterexample :
    ¬ schedRun [SchedEvent.tick, SchedEvent.tick] ≤ 1 := by decide

/-- C8 (amended): the `setInterval` callback in `main` launches `pollOnce`
on every tick unconditionally — `tickStartsCycle` ignores how many cycles
are in flight, so each tick increments the in-flight count; overlapping
cycles are not prevented by the scheduler. -/
theorem C8_amended_tick_always_starts (n : Nat) :
    tickStartsCycle n = true ∧ schedStep n SchedEvent.tick = n + 1 :=
  ⟨rfl, rfl⟩

/-- C9 counterexample: for the same two fetched creators, the src/index.js
cycle probes them in exactly the fetched order — its dispatch consults no
randomness at all — while the part_002 variant under the random draw 0
probes them swapped.  The src/index.js scheduler therefore does not shuffle
the entity list before dispatch. -/
theorem C9_counterexample :
    (pollOnce 2 (Except.ok [⟨"a", "ua"⟩, ⟨"b", "ub"⟩])
        (fun _ => Except.error "x") 0 (fun _ => emptyStore)).2 = ["ua", "ub"]
    ∧ (pollOnce002 2 (Except.ok [⟨"a", "ua"⟩, ⟨"b", "ub"⟩]) (fun _ => 0)
        (fun _ => Except.error "x") 0 (fun _ => emptyStore)).2 = ["ub", "ua"] :=
  ⟨rfl, rfl⟩

/-- C9 (amended): only the part_002 variant shuffles: its cycle dispatches
in `shuffleArray` order and the shuffle is a permutation of the fetched
list (no entity lost or duplicated), while the src/index.js cycle always
dispatches in fetched order. -/
theorem C9_amended_shuffle_only_in_variant :
    (∀ (T : Nat) (probe : Creator → Except String JSValue) (t : Nat)
        (g : GlobalStore) (creators : List Creator),
        (pollOnce T (Except.ok creators) probe t g).2
          = creators.map fun c => c.tiktok_username)
    ∧ (∀ (T : Nat) (rand : Nat → Nat) (probe : Creator → Except String JSValue)
        (t : Nat) (g : GlobalStore) (creators : List Creator),
        (pollOnce002 T (Except.ok creators) rand probe t g).2
          = (shuffleArray rand creators).map fun c => c.tiktok_username)
    ∧ (∀ (rand : Nat → Nat) (creators : List Creator),
        List.Perm (shuffleArray rand creators) creators) :=
  ⟨fun _ _ _ _ _ => rfl, fun _ _ _ _ _ _ => rfl,
   fun rand creators => shuffleArray_perm rand creators⟩

/-- C10: `isLive` pushes every non-throwing client response through Boolean
coercion, so every falsy value — `false`, `null`, `undefined`, `0`, `""` —
is classified as confirmed Offline and routed to `markNotLiveCandidate`
(which advances the miss counter when a `live_now` row exists); the Unknown
outcome arises exactly when the call throws. -/
theorem C10_falsy_is_offline :
    (∀ v : JSValue, jsBooleanCoerce v = false →
        classifyProbe (Except.ok v) = ProbeResult.offline)
    ∧ (jsBooleanCoerce (.jsBool false) = false ∧ jsBooleanCoerce .jsNull = false
        ∧ jsBooleanCoerce .jsUndefined = false ∧ jsBooleanCoerce (.jsNum 0) = false
        ∧ jsBooleanCoerce (.jsStr "") = false)
    ∧ (∀ resp : Except String JSValue,
        classifyProbe resp = ProbeResult.unknown ↔ ∃ e, resp = Except.error e)
    ∧ (∀ (T : Nat) (c : Creator) (v : JSValue) (t : Nat) (s : Store),
        jsBooleanCoerce v = false →
        checkCreator T c (Except.ok v) t s = markNotLiveCandidate T t s)
    ∧ (∀ (T t : Nat) (s : Store) (r : LiveNowRow),
        s.live_now = some r → r.miss_count + 1 < T →
        ∃ r', (markNotLiveCandidate T t s).live_now = some r'
          ∧ r'.miss_count = r.miss_count + 1) := by
  refine ⟨?_, by decide, ?_, ?_, ?_⟩
  · intro v h
    simp [classifyProbe, isLive, Except.map, h]
  · intro resp
    cases resp with
    | error e => simp [classifyProbe, isLive, Except.map]
    | ok v =>
      simp only [classifyProbe, isLive, Except.map]
      cases h : jsBooleanCoerce v <;> simp
  · intro T c v t s h
    simp [checkCreator, processProbe, classifyProbe, isLive, Except.map, h]
  · intro T t s r h hm
    rw [markNotLiveCandidate_below T t s r h hm]
    exact ⟨_, rfl, rfl⟩

/-- C10 witness: a `null` response is Offline, and an Offline probe below
the threshold advances the miss counter on the `live_now` row. -/
theorem C10_falsy_is_offline_witness :
    classifyProbe (Except.ok JSValue.jsNull) = ProbeResult.offline
    ∧ ∃ r', (markNotLiveCandidate 3 7
        (⟨some ⟨"u", 1, 1, 1, 0, 1⟩, [⟨"u", 1, none, none⟩]⟩ : Store)).live_now = some r'
      ∧ r'.miss_count = 1 :=
  ⟨C10_falsy_is_offline.1 JSValue.jsNull rfl,
   C10_falsy_is_offline.2.2.2.2 3 7 ⟨some ⟨"u", 1, 1, 1, 0, 1⟩, [⟨"u", 1, none, none⟩]⟩
     ⟨"u", 1, 1, 1, 0, 1⟩ rfl (by decide)⟩
